import Mathlib

/-!
Verification of the anti-turing-test scoring pipeline.

The TypeScript sources are shallowly embedded below.  Texts are modelled as
`List Char`, JS numbers as `ℚ` (exact arithmetic), and a JS computation whose
result is not a finite number (`0/0` produces `NaN`) is modelled as
`Option ℚ` with `none` standing for the non-finite value.  The two places
where the source computes a genuinely irrational real (`Math.sqrt` in the
sentiment-variance scorer and `Math.pow(x, 1.5)` in the AI-similarity
aggregator) are embedded over `ℝ`.

External primitives used by the code but implemented outside this repository
are passed in as parameters: the Porter stemmer (`stem`), the TF-IDF
term-weighting primitive of the `natural` package (`listTerms`), and the
VADER sentiment-polarity primitive (`polarity`).  The word tokenizer of the
`natural` package is modelled concretely (`tokenize`): maximal runs of word
characters.
-/

namespace AntiTuring

/-! ### Text primitives -/

/-- A word character in the JS sense: `[A-Za-z0-9_]`. -/
def isWordChar (c : Char) : Bool := c.isAlpha || c.isDigit || c = '_'

/-- Accumulator-based tokenizer: `cur` holds the current (reversed) run of
word characters. -/
def tokenizeAux : List Char → List Char → List (List Char)
  | [], cur => if cur.isEmpty then [] else [cur.reverse]
  | c :: cs, cur =>
    if isWordChar c then tokenizeAux cs (c :: cur)
    else if cur.isEmpty then tokenizeAux cs [] else cur.reverse :: tokenizeAux cs []

/-- Models `natural.WordTokenizer().tokenize`: the maximal runs of word
characters of the text. -/
def tokenize (text : List Char) : List (List Char) := tokenizeAux text []

/-- Models JS `String.prototype.toLowerCase` (ASCII fragment). -/
def lowerStr (s : List Char) : List Char := s.map Char.toLower

/-- A sentence delimiter of the split regex `[.!?]+`. -/
def isSentenceDelim (c : Char) : Bool := c = '.' || c = '!' || c = '?'

/-- Split on every single delimiter character.  After discarding blank
pieces this coincides with JS `text.split(/[.!?]+/)` (which splits on
maximal delimiter runs): the extra pieces produced between two adjacent
delimiters are empty and are removed by the blank filter. -/
def splitOnDelims : List Char → List Char → List (List Char)
  | [], cur => [cur.reverse]
  | c :: cs, cur =>
    if isSentenceDelim c then cur.reverse :: splitOnDelims cs []
    else splitOnDelims cs (c :: cur)

/-- Models `text.split(/[.!?]+/).filter(s => s.trim().length > 0)`
(route.ts line 27 and semanticAnalysisEngine line 83): a piece survives the
filter iff it contains a non-whitespace character. -/
def sentencesOf (text : List Char) : List (List Char) :=
  (splitOnDelims text []).filter fun s => s.any fun c => !c.isWhitespace

/-! ### JS-number helpers -/

/-- JS division, `none` when the denominator is zero (at every call site in
this code the numerator is then also zero, i.e. the JS result is `NaN`). -/
def jsDiv (a b : ℚ) : Option ℚ := if b = 0 then none else some (a / b)

/-- Addition propagating `NaN`. -/
def jsAdd : Option ℚ → Option ℚ → Option ℚ
  | some a, some b => some (a + b)
  | _, _ => none

/-- Multiplication by a constant, propagating `NaN`. -/
def jsMul (a : Option ℚ) (c : ℚ) : Option ℚ := a.map fun x => x * c

/-- `Math.min(Math.max(x, 0), 1)`. -/
def clamp01 (x : ℚ) : ℚ := min (max x 0) 1

/-- Clamping propagates `NaN` (`Math.min`/`Math.max` of `NaN` is `NaN`). -/
def jsClamp01 (x : Option ℚ) : Option ℚ := x.map clamp01

/-! ### aiSimilarityScoring.ts -/

namespace AISimilarityScoring

/-- The fixed academic lexicon (`getAcademicWordList`). -/
def academicWordList : List String :=
  ["analyze", "assess", "concept", "context", "contrast", "derive", "distribute",
   "environment", "establish", "estimate", "evaluate", "factor", "function",
   "identify", "interpret", "involve", "method", "occur", "principle", "proceed",
   "process", "require", "research", "respond", "significant", "similar",
   "specific", "structure", "theory", "variable"]

/-- The fixed connector-word list. -/
def connectorWords : List String :=
  ["therefore", "however", "moreover", "consequently", "furthermore",
   "nevertheless", "thus", "hence", "accordingly", "besides"]

/-- `calculateVocabularyComplexity` (aiSimilarityScoring.ts lines 22-81).
`stem` is the external Porter stemmer.  The two word-density divisions are
by `tokens.length` and are unguarded in the source: on a zero-token text the
JS code computes `0/0 = NaN`, modelled here as `none`. -/
def calculateVocabularyComplexity (stem : List Char → List Char) (text : List Char) :
    Option ℚ :=
  let tokens := tokenize text
  let stemmedTokens := tokens.map fun t => stem (lowerStr t)
  let academicWordsInText :=
    stemmedTokens.filter fun tok => academicWordList.any fun w => stem (lowerStr w.toList) == tok
  let connectorWordsInText :=
    stemmedTokens.filter fun tok => connectorWords.any fun w => stem (lowerStr w.toList) == tok
  let pairs := stemmedTokens.zip stemmedTokens.tail
  let keys := (pairs.map Prod.fst).dedup
  let totalTransitionOptions :=
    (keys.map fun k => ((pairs.filter fun p => p.1 == k).map Prod.snd).dedup.length).sum
  let averageTransitionOptions : ℚ :=
    if keys.length = 0 then 0 else (totalTransitionOptions : ℚ) / (keys.length : ℚ)
  let normalizedTransitionScore : ℚ := min (averageTransitionOptions / 5) 1
  jsAdd (jsAdd (jsMul (jsDiv (academicWordsInText.length : ℚ) (tokens.length : ℚ)) 0.4)
               (jsMul (jsDiv (connectorWordsInText.length : ℚ) (tokens.length : ℚ)) 0.3))
        (some (normalizedTransitionScore * 0.3))

/-- `calculateEmotionalFluctuation` (lines 88-109).  `polarity` is the
external VADER compound-polarity primitive.  The result involves a real
square root, so this scorer is embedded over `ℝ`. -/
noncomputable def calculateEmotionalFluctuation (polarity : List Char → ℝ)
    (textSegments : List (List Char)) : ℝ :=
  if textSegments.length < 2 then 0
  else
    let sentimentScores := textSegments.map polarity
    let mean := sentimentScores.sum / (sentimentScores.length : ℝ)
    let variance :=
      (sentimentScores.map fun score => (score - mean) ^ 2).sum / (sentimentScores.length : ℝ)
    min (Real.sqrt variance / 0.5) 1

/-- `calculateCreativeDivergence` (lines 116-166).  `listTerms` is the
external TF-IDF ranking primitive; the code takes its top three terms per
segment as concepts.  When two consecutive segments both have an empty
concept list the JS similarity is `0/0 = NaN`, hence the `Option`. -/
def calculateCreativeDivergence (stem : List Char → List Char)
    (listTerms : List (List Char) → List (List Char))
    (textSegments : List (List Char)) : Option ℚ :=
  if textSegments.length < 2 then some 0
  else
    let segmentConcepts := textSegments.map fun segment =>
      (listTerms ((tokenize segment).map fun t => stem (lowerStr t))).take 3
    let jumps := (segmentConcepts.zip segmentConcepts.tail).map fun p =>
      (jsDiv ((p.1.filter fun c => p.2.contains c).length : ℚ)
             ((max p.1.length p.2.length : ℕ) : ℚ)).map fun similarity => 1 - similarity
    let totalJumpDistance := jumps.foldl jsAdd (some 0)
    totalJumpDistance.map fun t =>
      min (t / ((segmentConcepts.length : ℚ) - 1) * 1.5) 1

/-- `invertAIScore` (lines 198-202): `1 - Math.pow(aiScore, 1.5)`. -/
noncomputable def invertAIScore (aiScore : ℝ) : ℝ := 1 - aiScore ^ (1.5 : ℝ)

/-- `calculateOverallScore` (lines 175-191). -/
noncomputable def calculateOverallScore
    (vocabularyComplexity emotionalFluctuation creativeDivergence : ℝ) : ℝ :=
  invertAIScore vocabularyComplexity * 0.3 +
  invertAIScore emotionalFluctuation * 0.4 +
  invertAIScore creativeDivergence * 0.3

end AISimilarityScoring

/-! ### semanticAnalysisEngine: analyzeTextStructure -/

/-- The result record of `analyzeTextStructure`. -/
structure TextStructure where
  lexicalDiversity : Option ℚ
  avgSentenceLength : Option ℚ
  keyTerms : List (List Char × ℚ)
  tokenCount : ℕ
  sentenceCount : ℕ

/-- `analyzeTextStructure` (semanticAnalysisEngine lines 74-103).
`listTerms` is the external TF-IDF primitive used for key terms.  Both
divisions (`uniqueTokens.size / tokens.length` and
`tokens.length / sentences.length`) are unguarded in the source; a
zero-token text makes both `0/0 = NaN`, modelled as `none`. -/
def analyzeTextStructure (stem : List Char → List Char)
    (listTerms : List Char → List (List Char × ℚ)) (text : List Char) : TextStructure :=
  let tokens := tokenize text
  let uniqueTokens := (tokens.map fun t => stem (lowerStr t)).dedup
  let sentences := sentencesOf text
  { lexicalDiversity := jsDiv (uniqueTokens.length : ℚ) (tokens.length : ℚ)
    avgSentenceLength := jsDiv (tokens.length : ℚ) (sentences.length : ℚ)
    keyTerms := (listTerms text).take 5
    tokenCount := tokens.length
    sentenceCount := sentences.length }

/-! ### innovationFeatureMatrix.ts: the local time-perception judge -/

namespace InnovationFeatureMatrix

/-- `timeExpressions` (innovationFeatureMatrix lines 333-336). -/
def timeExpressions : List String :=
  ["recently", "lately", "the other day", "last week", "a while ago",
   "a few days ago", "some time ago", "earlier", "previously"]

/-- Models JS `String.prototype.includes`. -/
def containsSub (needle : List Char) : List Char → Bool
  | [] => needle.isEmpty
  | c :: cs => needle.isPrefixOf (c :: cs) || containsSub needle cs

/-- `hasVagueTimeReferences` (lines 340-342): some fixed expression occurs
in the lower-cased text. -/
def hasVagueTimeReferences (text : List Char) : Bool :=
  timeExpressions.any fun expr => containsSub expr.toList (lowerStr text)

/-- A separator of the date regex character class `[/.-]`. -/
def isDateSep (c : Char) : Bool := c = '/' || c = '.' || c = '-'

/-- The `\b` boundary after a word character: end of input or a non-word
character next. -/
def boundaryAfter : List Char → Bool
  | [] => true
  | c :: _ => !isWordChar c

/-- Whether `/\b\d{1,2}[\/\.-]\d{1,2}[\/\.-]\d{2,4}\b/` matches starting at
the head of `l` (the leading `\b` is checked by the scanner).  Digits and
separators are disjoint character classes, so the backtracking regex
matches here iff each maximal digit run has the demanded length and the
final run is followed by a non-word character or the end. -/
def dateHere (l : List Char) : Bool :=
  let r1 := l.takeWhile Char.isDigit
  let l1 := l.dropWhile Char.isDigit
  decide (1 ≤ r1.length) && decide (r1.length ≤ 2) &&
    match l1 with
    | c :: l2 =>
      isDateSep c &&
        (let r2 := l2.takeWhile Char.isDigit
         let l3 := l2.dropWhile Char.isDigit
         decide (1 ≤ r2.length) && decide (r2.length ≤ 2) &&
           match l3 with
           | c2 :: l4 =>
             isDateSep c2 &&
               (let r3 := l4.takeWhile Char.isDigit
                let l5 := l4.dropWhile Char.isDigit
                decide (2 ≤ r3.length) && decide (r3.length ≤ 4) && boundaryAfter l5)
           | [] => false)
    | [] => false

/-- Whether `/\b\d{1,2}:\d{2}\b/` matches starting at the head of `l`. -/
def timeHere (l : List Char) : Bool :=
  let r1 := l.takeWhile Char.isDigit
  let l1 := l.dropWhile Char.isDigit
  decide (1 ≤ r1.length) && decide (r1.length ≤ 2) &&
    match l1 with
    | ':' :: a :: b :: rest => a.isDigit && b.isDigit && boundaryAfter rest
    | _ => false

/-- Scan all start positions.  `prevWord` records whether the previous
character is a word character: both patterns begin with `\b\d`, so a match
can only start where the previous character is absent or not a word
character. -/
def scanFrom (pat : List Char → Bool) : Bool → List Char → Bool
  | _, [] => false
  | prevWord, c :: cs => (!prevWord && pat (c :: cs)) || scanFrom pat (isWordChar c) cs

/-- Models JS `RegExp.prototype.test`: a match exists at some position. -/
def testPattern (pat : List Char → Bool) (text : List Char) : Bool :=
  scanFrom pat false text

/-- `hasPreciseTimeReferences` (lines 345-348). -/
def hasPreciseTimeReferences (text : List Char) : Bool :=
  testPattern dateHere text || testPattern timeHere text

/-- `avgDelay` (lines 328-330): mean of the delay array, `0` when empty. -/
def avgDelay (responseDelays : List ℚ) : ℚ :=
  if 0 < responseDelays.length then responseDelays.sum / (responseDelays.length : ℚ) else 0

/-- The response-delay adjustment (lines 354-358): `+0.2` inside the human
hesitation window, `-0.2` (else-if) when implausibly fast, else `0`. -/
def delayAdjust (a : ℚ) : ℚ :=
  if 1200 ≤ a ∧ a ≤ 3400 then 0.2 else if a < 500 then -0.2 else 0

/-- The score of `analyzeTimePerception` before the final clamp
(lines 351-366): the sequential `score +=`/`score -=` mutations written as
one sum. -/
def timePerceptionRaw (text : List Char) (responseDelays : List ℚ) : ℚ :=
  0.5 + delayAdjust (avgDelay responseDelays)
      + (if hasVagueTimeReferences text then 0.15 else 0)
      - (if hasPreciseTimeReferences text then 0.15 else 0)

/-- The returned score of `analyzeTimePerception` (line 369 clamps). -/
def timePerceptionScore (text : List Char) (responseDelays : List ℚ) : ℚ :=
  clamp01 (timePerceptionRaw text responseDelays)

end InnovationFeatureMatrix

/-! ### Spec-side model of the time-perception judge

The spec (and claim C3) states the precise-reference patterns as
`\d{1,2}[/.-]\d{1,2}[/.-]\d{2,4}` and `\d{1,2}:\d{2}` with no `\b`
anchors.  The definitions below follow the claim's words exactly, for
comparison against the source embedding above. -/

namespace SpecModel

/-- Exactly `n` digits, then continuation `k`. -/
def digitsThen : ℕ → (List Char → Bool) → List Char → Bool
  | 0, k, l => k l
  | _ + 1, _, [] => false
  | n + 1, k, c :: cs => c.isDigit && digitsThen n k cs

/-- One separator from `[/.-]`, then continuation `k`. -/
def sepThen (k : List Char → Bool) : List Char → Bool
  | c :: cs => InnovationFeatureMatrix.isDateSep c && k cs
  | [] => false

/-- Unanchored `\d{1,2}[/.-]\d{1,2}[/.-]\d{2,4}` matching at the head of
`l`: some choice of repetition counts succeeds (for the trailing `\d{2,4}`
two digits suffice, since nothing follows them in the pattern). -/
def specDateHere (l : List Char) : Bool :=
  [1, 2].any fun k1 =>
    digitsThen k1
      (sepThen fun l2 =>
        [1, 2].any fun k2 =>
          digitsThen k2 (sepThen (digitsThen 2 fun _ => true)) l2) l

/-- Unanchored `\d{1,2}:\d{2}` matching at the head of `l`. -/
def specTimeHere (l : List Char) : Bool :=
  [1, 2].any fun k1 =>
    digitsThen k1
      (fun l2 =>
        match l2 with
        | ':' :: rest => digitsThen 2 (fun _ => true) rest
        | _ => false) l

/-- A match at some position (no boundary condition between positions). -/
def specMatches (pat : List Char → Bool) : List Char → Bool
  | [] => pat []
  | c :: cs => pat (c :: cs) || specMatches pat cs

/-- The claim's precise-reference test: unanchored date or time pattern. -/
def specHasPrecise (text : List Char) : Bool :=
  specMatches specDateHere text || specMatches specTimeHere text

/-- The time-perception score exactly as claim C3 words it: 0.5, plus 0.2
if the delay mean is within [1200,3400], minus 0.2 if it is below 500,
plus 0.15 on a vague phrase, minus 0.15 on an (unanchored) precise
pattern, finally clamped. -/
def specTimeScore (text : List Char) (responseDelays : List ℚ) : ℚ :=
  clamp01 (0.5
    + (if 1200 ≤ InnovationFeatureMatrix.avgDelay responseDelays ∧
          InnovationFeatureMatrix.avgDelay responseDelays ≤ 3400 then 0.2 else 0)
    - (if InnovationFeatureMatrix.avgDelay responseDelays < 500 then 0.2 else 0)
    + (if InnovationFeatureMatrix.hasVagueTimeReferences text then 0.15 else 0)
    - (if specHasPrecise text then 0.15 else 0))

/-- The same spec-worded score with the patterns word-boundary anchored as
in the source (`\b...\b`) — the amended form of claim C3. -/
def specTimeScoreAnchored (text : List Char) (responseDelays : List ℚ) : ℚ :=
  clamp01 (0.5
    + (if 1200 ≤ InnovationFeatureMatrix.avgDelay responseDelays ∧
          InnovationFeatureMatrix.avgDelay responseDelays ≤ 3400 then 0.2 else 0)
    - (if InnovationFeatureMatrix.avgDelay responseDelays < 500 then 0.2 else 0)
    + (if InnovationFeatureMatrix.hasVagueTimeReferences text then 0.15 else 0)
    - (if InnovationFeatureMatrix.hasPreciseTimeReferences text then 0.15 else 0))

end SpecModel

/-! ### The five LLM-backed qualitative judges -/

/-- The result record returned by every judge. -/
structure FeatureResult where
  score : Option ℚ
  analysis : String
  humanVsAI : String

/-- The five LLM-backed dimensions (time perception is computed locally). -/
inductive LLMDimension
  | semanticElasticity
  | emotionalExpression
  | referenceAbility
  | ambiguityHandling
  | creativeThinking
deriving DecidableEq

/-- The dimension's name as used in the error strings of the source. -/
def dimensionName : LLMDimension → String
  | .semanticElasticity => "semantic elasticity"
  | .emotionalExpression => "emotional expression"
  | .referenceAbility => "reference ability"
  | .ambiguityHandling => "ambiguity handling"
  | .creativeThinking => "creative thinking"

/-- The fixed humanVsAI rubric string of each dimension, copied from the
source (identical in the success branch, the module catch branch and the
route-level catch branch). -/
def dimensionRubric : LLMDimension → String
  | .semanticElasticity => "Human: topic natural transitions, acknowledges knowledge gaps\nAI: rigid logical structure, overuses transition phrases"
  | .emotionalExpression => "Human: micro-emotional fluctuations, asymmetric responses\nAI: flat emotional tone, excessive political correctness"
  | .referenceAbility => "Human: concrete examples, idiosyncratic details\nAI: generic examples, references to studies"
  | .ambiguityHandling => "Human: temporary contradictions, self-correction\nAI: forced consistency, avoidance of uncertainty"
  | .creativeThinking => "Human: cross-domain analogies, imperfect but novel ideas\nAI: pattern-based innovation, formulaic creativity"

/-- The canned fallback result produced by the catch branches
(innovationFeatureMatrix, e.g. lines 67-74, and route.ts lines 67-90). -/
def fallbackResult (d : LLMDimension) : FeatureResult :=
  { score := some 0.5
    analysis := "Error analyzing " ++ dimensionName d
    humanVsAI := dimensionRubric d }

/-- Attempt to match `/score:?\s*([0-9.]+)/i` at the head of `l`, returning
the captured `[0-9.]+` run. -/
def scoreTokenAt (l : List Char) : Option (List Char) :=
  match l with
  | c1 :: c2 :: c3 :: c4 :: c5 :: rest =>
    if lowerStr [c1, c2, c3, c4, c5] = ['s', 'c', 'o', 'r', 'e'] then
      let rest1 := match rest with
        | ':' :: t => t
        | t => t
      let rest2 := rest1.dropWhile Char.isWhitespace
      let digits := rest2.takeWhile fun c => c.isDigit || c = '.'
      if digits.isEmpty then none else some digits
    else none
  | _ => none

/-- The leftmost full match of `/score:?\s*([0-9.]+)/i`. -/
def findScoreToken : List Char → Option (List Char)
  | [] => none
  | c :: cs =>
    match scoreTokenAt (c :: cs) with
    | some tok => some tok
    | none => findScoreToken cs

/-- Digit run to a natural number. -/
def digitsToNat (l : List Char) : ℕ :=
  l.foldl (fun n c => 10 * n + (c.toNat - 48)) 0

/-- Models JS `parseFloat` on a non-empty run of `[0-9.]` characters:
integer digits, an optional point, fraction digits, ignoring anything from
a second point on.  A bare `"."` parses to `NaN` (`none`). -/
def jsParseFloat (l : List Char) : Option ℚ :=
  let intPart := l.takeWhile Char.isDigit
  let rest := l.dropWhile Char.isDigit
  match rest with
  | '.' :: rest2 =>
    let fracPart := rest2.takeWhile Char.isDigit
    if intPart.isEmpty && fracPart.isEmpty then none
    else some ((digitsToNat intPart : ℚ) + (digitsToNat fracPart : ℚ) / 10 ^ fracPart.length)
  | _ => if intPart.isEmpty then none else some (digitsToNat intPart : ℚ)

/-- `scoreMatch ? parseFloat(scoreMatch[1]) : 0.5` (e.g. lines 59-60). -/
def parseJudgeScore (analysisText : String) : Option ℚ :=
  match findScoreToken analysisText.toList with
  | none => some 0.5
  | some tok => jsParseFloat tok

/-- One LLM-backed judge.  Its external call either fails (`Except.error`,
covering transport errors and any rejection) or yields the reply text.  On
success the source clamps the parsed score and returns the reply as the
analysis; on failure the catch branch returns the canned fallback. -/
def runLLMJudge (d : LLMDimension) (outcome : Except Unit String) : FeatureResult :=
  match outcome with
  | .error _ => fallbackResult d
  | .ok analysisText =>
    { score := jsClamp01 (parseJudgeScore analysisText)
      analysis := analysisText
      humanVsAI := dimensionRubric d }

/-! ### The local time-perception judge's full result -/

namespace InnovationFeatureMatrix

/-- JS `Math.round`: half away from zero is half up for the values here. -/
def roundQ (x : ℚ) : ℤ := ⌊x + 0.5⌋

/-- Two-digit zero-padded rendering. -/
def pad2 (n : ℕ) : String := if n < 10 then "0" ++ toString n else toString n

/-- `Number.prototype.toFixed(2)` for the exact scores in `[0,1]` produced
by this judge. -/
def toFixed2 (x : ℚ) : String :=
  let n := (roundQ (x * 100)).toNat
  if 100 ≤ n then toString (n / 100) ++ "." ++ pad2 (n % 100)
  else "0." ++ pad2 n

/-- The templated analysis text (lines 372-384). -/
def timePerceptionAnalysis (text : List Char) (responseDelays : List ℚ) : String :=
  let a := avgDelay responseDelays
  let score := timePerceptionScore text responseDelays
  "Time perception analysis:\n" ++
  "- Average response delay: " ++ toString (roundQ a) ++ "ms\n" ++
  "- Uses vague time references: " ++ (if hasVagueTimeReferences text then "Yes" else "No") ++ "\n" ++
  "- Uses precise time references: " ++ (if hasPreciseTimeReferences text then "Yes" else "No") ++ "\n" ++
  "- Overall time perception score: " ++ toFixed2 score ++ "\n" ++
  (if 0.7 < score then "The text shows human-like time perception patterns."
   else if score < 0.3 then "The text shows AI-like time perception patterns."
   else "The text shows mixed time perception patterns.")

/-- `analyzeTimePerception` (lines 319-391): the only judge computed
locally; it never fails. -/
def analyzeTimePerception (text : List Char) (responseDelays : List ℚ) : FeatureResult :=
  { score := some (timePerceptionScore text responseDelays)
    analysis := timePerceptionAnalysis text responseDelays
    humanVsAI := "Human: reasonable delays, vague time references\nAI: instant responses, precise time references" }

/-- `calculateOverallScore` of innovationFeatureMatrix (lines 398-426):
weights 0.2, 0.2, 0.15, 0.15, 0.15, 0.15. -/
def calculateOverallScore
    (semanticElasticity emotionalExpression referenceAbility
     ambiguityHandling creativeThinking timePerception : Option ℚ) : Option ℚ :=
  jsAdd (jsAdd (jsAdd (jsAdd (jsAdd
    (jsMul semanticElasticity 0.2)
    (jsMul emotionalExpression 0.2))
    (jsMul referenceAbility 0.15))
    (jsMul ambiguityHandling 0.15))
    (jsMul creativeThinking 0.15))
    (jsMul timePerception 0.15)

end InnovationFeatureMatrix

/-! ### The analyze route (route.ts POST) -/

/-- The outcome of each of the five concurrent external judge calls. -/
structure JudgeOutcomes where
  semanticElasticity : Except Unit String
  emotionalExpression : Except Unit String
  referenceAbility : Except Unit String
  ambiguityHandling : Except Unit String
  creativeThinking : Except Unit String

/-- Select a dimension's outcome. -/
def JudgeOutcomes.get (o : JudgeOutcomes) : LLMDimension → Except Unit String
  | .semanticElasticity => o.semanticElasticity
  | .emotionalExpression => o.emotionalExpression
  | .referenceAbility => o.referenceAbility
  | .ambiguityHandling => o.ambiguityHandling
  | .creativeThinking => o.creativeThinking

/-- The `innovationFeatures` block of the response. -/
structure InnovationFeatures where
  semanticElasticity : FeatureResult
  emotionalExpression : FeatureResult
  referenceAbility : FeatureResult
  ambiguityHandling : FeatureResult
  creativeThinking : FeatureResult
  timePerception : FeatureResult
  overallScore : Option ℚ

/-- The six judges of route.ts lines 59-101: five external calls (each with
its own catch-to-fallback boundary) plus the local time-perception judge,
then the weighted aggregate. -/
def runJudges (text : List Char) (responseDelays : List ℚ) (o : JudgeOutcomes) :
    InnovationFeatures :=
  let se := runLLMJudge .semanticElasticity o.semanticElasticity
  let ee := runLLMJudge .emotionalExpression o.emotionalExpression
  let ra := runLLMJudge .referenceAbility o.referenceAbility
  let ah := runLLMJudge .ambiguityHandling o.ambiguityHandling
  let ct := runLLMJudge .creativeThinking o.creativeThinking
  let tp := InnovationFeatureMatrix.analyzeTimePerception text responseDelays
  { semanticElasticity := se
    emotionalExpression := ee
    referenceAbility := ra
    ambiguityHandling := ah
    creativeThinking := ct
    timePerception := tp
    overallScore :=
      InnovationFeatureMatrix.calculateOverallScore
        se.score ee.score ra.score ah.score ct.score tp.score }

/-- Select a dimension's feature result. -/
def featureOf (f : InnovationFeatures) : LLMDimension → FeatureResult
  | .semanticElasticity => f.semanticElasticity
  | .emotionalExpression => f.emotionalExpression
  | .referenceAbility => f.referenceAbility
  | .ambiguityHandling => f.ambiguityHandling
  | .creativeThinking => f.creativeThinking

/-- The six feature results contained in the block, in the fixed output
order of the source. -/
def featureList (f : InnovationFeatures) : List FeatureResult :=
  [f.semanticElasticity, f.emotionalExpression, f.referenceAbility,
   f.ambiguityHandling, f.creativeThinking, f.timePerception]

/-- The validation of route.ts lines 19-24: `if (!text)` rejects exactly
the falsy texts, i.e. the empty string (whitespace-only strings are
truthy). -/
def textAccepted (text : List Char) : Bool := !text.isEmpty

/-- The segment-grouping loop of route.ts lines 28-42, one fold step per
sentence. -/
def segmentStep (acc : List (List Char) × List Char) (sentence : List Char) :
    List (List Char) × List Char :=
  if 200 < acc.2.length + sentence.length then (acc.1 ++ [acc.2], sentence)
  else (acc.1, acc.2 ++ (if acc.2.isEmpty then [] else [' ']) ++ sentence)

/-- The `textSegments` computed by the route: fold the sentences, then push
the last accumulated segment if non-empty. -/
def segmentText (text : List Char) : List (List Char) :=
  let r := (sentencesOf text).foldl segmentStep ([], [])
  if r.2.isEmpty then r.1 else r.1 ++ [r.2]

/-- The composite score of route.ts lines 104-107. -/
def overallHumanLikenessScore (aiSimilarityScore innovationFeatureScore : ℚ) : ℚ :=
  aiSimilarityScore * 0.4 + innovationFeatureScore * 0.6

/-- The classification if-chain of route.ts lines 110-117 (the initial
`'Undetermined'` is always overwritten). -/
def classifyScore (s : ℚ) : String :=
  if 0.7 ≤ s then "Human" else if s ≤ 0.3 then "AI" else "Ambiguous"

/-- The `aiSimilarity` block of the response. -/
structure AISimilarity where
  vocabularyComplexity : Option ℚ
  emotionalFluctuation : ℝ
  creativeDivergence : Option ℚ
  overallScore : Option ℝ

/-- The full response body of a successful analyze request. -/
structure AnalysisReport where
  textStructure : TextStructure
  aiSimilarity : AISimilarity
  innovationFeatures : InnovationFeatures
  overallHumanLikenessScore : Option ℝ
  classification : String

/-- The successful-path body of the route (lines 26-117 and 177-220).
`NaN` (`none`) propagates through the aggregates; a `NaN` composite score
fails both threshold comparisons and classifies as `"Ambiguous"`. -/
noncomputable def buildReport (stem : List Char → List Char)
    (listTermsDoc : List (List Char) → List (List Char))
    (listTermsText : List Char → List (List Char × ℚ))
    (polarity : List Char → ℝ)
    (text : List Char) (responseDelays : List ℚ) (o : JudgeOutcomes) : AnalysisReport :=
  let textSegments := segmentText text
  let vocabularyComplexity := AISimilarityScoring.calculateVocabularyComplexity stem text
  let emotionalFluctuation := AISimilarityScoring.calculateEmotionalFluctuation polarity textSegments
  let creativeDivergence := AISimilarityScoring.calculateCreativeDivergence stem listTermsDoc textSegments
  let aiSimilarityScore : Option ℝ :=
    match vocabularyComplexity, creativeDivergence with
    | some v, some c =>
      some (AISimilarityScoring.calculateOverallScore (v : ℝ) emotionalFluctuation (c : ℝ))
    | _, _ => none
  let innov := runJudges text responseDelays o
  let overall : Option ℝ :=
    match aiSimilarityScore, innov.overallScore with
    | some a, some i => some (a * 0.4 + (i : ℝ) * 0.6)
    | _, _ => none
  let classification :=
    match overall with
    | some s => if (0.7 : ℝ) ≤ s then "Human" else if s ≤ 0.3 then "AI" else "Ambiguous"
    | none => "Ambiguous"
  { textStructure := analyzeTextStructure stem listTermsText text
    aiSimilarity :=
      { vocabularyComplexity := vocabularyComplexity
        emotionalFluctuation := emotionalFluctuation
        creativeDivergence := creativeDivergence
        overallScore := aiSimilarityScore }
    innovationFeatures := innov
    overallHumanLikenessScore := overall
    classification := classification }

/-- The POST handler's input contract: reject falsy text with the
`"Text is required"` error, otherwise produce the full report. -/
noncomputable def analyzePost (stem : List Char → List Char)
    (listTermsDoc : List (List Char) → List (List Char))
    (listTermsText : List Char → List (List Char × ℚ))
    (polarity : List Char → ℝ)
    (text : List Char) (responseDelays : List ℚ) (o : JudgeOutcomes) :
    Except String AnalysisReport :=
  if textAccepted text then
    .ok (buildReport stem listTermsDoc listTermsText polarity text responseDelays o)
  else .error "Text is required"

/-- Whether an `Except` is a success. -/
def exceptOk : Except String AnalysisReport → Bool
  | .ok _ => true
  | .error _ => false

/-! ### Concrete inputs used in the theorems below -/

/-- The all-punctuation text `"!!!"`: truthy (accepted by the route) but
tokenizes to zero tokens. -/
def exclamations : List Char := ['!', '!', '!']

/-- A whitespace-only text, truthy in JS. -/
def whitespaceText : List Char := [' ']

/-- `"123:45"`: contains `23:45` as a substring, but `\b\d{1,2}:\d{2}\b`
does not match it. -/
def colonText : List Char := "123:45".toList

/-- A text containing the vague phrase `"last week"` and no precise
date/time pattern. -/
def lastWeekText : List Char := "We met last week".toList

/-- The second worked example of the spec for the time-perception judge. -/
def meetingText : List Char := "Meeting at 14:30 on 12/05/2024".toList

/-- Two 100-character sentences: the route joins them with a space into a
single 201-character segment. -/
def longSentenceText : List Char :=
  List.replicate 100 'a' ++ ['.'] ++ List.replicate 100 'b'

/-- A tiny text whose single sentence is its own segment. -/
def hiText : List Char := ['H', 'i']

/-- Judge outcomes where the semantic-elasticity call failed and the other
four external calls succeeded. -/
def failingOutcomes : JudgeOutcomes :=
  { semanticElasticity := .error ()
    emotionalExpression := .ok "Score: 0.8"
    referenceAbility := .ok "Score: 0.6"
    ambiguityHandling := .ok "no numeric value here"
    creativeThinking := .ok "Score: 0.7"}

/-- Judge outcomes where all five external calls succeeded. -/
def allOkOutcomes : JudgeOutcomes :=
  { semanticElasticity := .ok "Score: 0.8"
    emotionalExpression := .ok "Score: 0.8"
    referenceAbility := .ok "Score: 0.8"
    ambiguityHandling := .ok "Score: 0.8"
    creativeThinking := .ok "Score: 0.8"}

end AntiTuring

open AntiTuring

/-! ### Helper lemmas -/

/-- Selecting an LLM dimension of the fan-out gives exactly that judge run
on its own outcome. -/
lemma featureOf_runJudges (text : List Char) (delays : List ℚ) (o : JudgeOutcomes)
    (d : LLMDimension) :
    featureOf (runJudges text delays o) d = runLLMJudge d (o.get d) := by
  cases d <;> rfl

/-- The delay if/else-if chain equals the sum of the two independent
adjustments, because the two conditions exclude each other. -/
lemma delayAdjust_split (a : ℚ) :
    InnovationFeatureMatrix.delayAdjust a =
      (if 1200 ≤ a ∧ a ≤ 3400 then (0.2 : ℚ) else 0) -
      (if a < 500 then (0.2 : ℚ) else 0) := by
  rw [InnovationFeatureMatrix.delayAdjust]
  by_cases h1 : 1200 ≤ a ∧ a ≤ 3400
  · rw [if_pos h1, if_pos h1, if_neg (by linarith [h1.1] : ¬ a < 500)]
    norm_num
  · rw [if_neg h1, if_neg h1]
    by_cases h2 : a < 500
    · rw [if_pos h2, if_pos h2]; norm_num
    · rw [if_neg h2, if_neg h2]; norm_num

/-- The fold of the segment-grouping loop keeps every emitted segment and
the accumulated current segment at ≤ 201 characters, as long as every
remaining sentence is at most 200 characters. -/
lemma segmentFold_bound (sents : List (List Char)) :
    ∀ acc : List (List Char) × List Char,
      (∀ s ∈ sents, s.length ≤ 200) →
      (∀ g ∈ acc.1, g.length ≤ 201) → acc.2.length ≤ 201 →
      (∀ g ∈ (sents.foldl segmentStep acc).1, g.length ≤ 201) ∧
        (sents.foldl segmentStep acc).2.length ≤ 201 := by
  induction sents with
  | nil => exact fun acc _ h1 h2 => ⟨h1, h2⟩
  | cons s ss ih =>
    intro acc hs h1 h2
    have hsLen : s.length ≤ 200 := hs s (List.mem_cons_self s ss)
    rw [List.foldl_cons]
    refine ih (segmentStep acc s) (fun x hx => hs x (List.mem_cons_of_mem s hx)) ?_ ?_
    · intro g hg
      rw [segmentStep] at hg
      by_cases hlen : 200 < acc.2.length + s.length
      · rw [if_pos hlen] at hg
        rcases List.mem_append.mp hg with hmem | hmem
        · exact h1 g hmem
        · rw [List.mem_singleton.mp hmem]
          exact h2
      · rw [if_neg hlen] at hg
        exact h1 g hg
    · rw [segmentStep]
      by_cases hlen : 200 < acc.2.length + s.length
      · rw [if_pos hlen]
        exact le_trans hsLen (by norm_num)
      · rw [if_neg hlen]
        push_neg at hlen
        simp only [List.length_append]
        split_ifs <;> simp <;> omega

/-! ### The claim theorems -/

/-- C1: the claim "every score field of the produced report is a number in
[0,1]" fails on the code.  The text `"!!!"` passes the route's validation
(`!text` is false), yet it has zero tokens, so the unguarded division in
`calculateVocabularyComplexity` yields `NaN` (modelled `none`) — for every
stemmer — and the `NaN` propagates into the report's
`aiSimilarity.vocabularyComplexity`, `aiSimilarity.overallScore` and
`overallHumanLikenessScore` fields.  This contradicts the function's own
doc comment ("Vocabulary complexity score (0-1)"), so the code, not the
claim, is wrong. -/
theorem c1_score_nan_on_accepted_input :
    textAccepted exclamations = true ∧
    (∀ stem : List Char → List Char,
      AISimilarityScoring.calculateVocabularyComplexity stem exclamations = none) ∧
    (∀ (stem : List Char → List Char)
       (listTermsDoc : List (List Char) → List (List Char))
       (listTermsText : List Char → List (List Char × ℚ))
       (polarity : List Char → ℝ) (o : JudgeOutcomes),
      (buildReport stem listTermsDoc listTermsText polarity
        exclamations [] o).aiSimilarity.vocabularyComplexity = none ∧
      (buildReport stem listTermsDoc listTermsText polarity
        exclamations [] o).aiSimilarity.overallScore = none ∧
      (buildReport stem listTermsDoc listTermsText polarity
        exclamations [] o).overallHumanLikenessScore = none) :=
  ⟨rfl, fun _ => rfl, fun _ _ _ _ _ => ⟨rfl, rfl, rfl⟩⟩

/-- C2: the composite classifier computes
`overallHumanLikenessScore = 0.4·aiSimilarityOverall + 0.6·innovationFeatureOverall`
and classifies: a score ≥ 0.7 as "Human", a score ≤ 0.3 as "AI", and every
score strictly between as "Ambiguous"; the concrete pairs (0.9,0.9),
(0.1,0.1) and (0.5,0.5) give "Human", "AI" and "Ambiguous". -/
theorem c2_composite_classifier :
    (∀ a i : ℚ, overallHumanLikenessScore a i = 0.4 * a + 0.6 * i) ∧
    (∀ s : ℚ, 0.7 ≤ s → classifyScore s = "Human") ∧
    (∀ s : ℚ, s ≤ 0.3 → classifyScore s = "AI") ∧
    (∀ s : ℚ, 0.3 < s → s < 0.7 → classifyScore s = "Ambiguous") ∧
    overallHumanLikenessScore 0.9 0.9 = 0.9 ∧
    classifyScore (overallHumanLikenessScore 0.9 0.9) = "Human" ∧
    overallHumanLikenessScore 0.1 0.1 = 0.1 ∧
    classifyScore (overallHumanLikenessScore 0.1 0.1) = "AI" ∧
    overallHumanLikenessScore 0.5 0.5 = 0.5 ∧
    classifyScore (overallHumanLikenessScore 0.5 0.5) = "Ambiguous" := by
  have hov : ∀ a i : ℚ, overallHumanLikenessScore a i = 0.4 * a + 0.6 * i := by
    intro a i; rw [overallHumanLikenessScore]; ring
  have hhuman : ∀ s : ℚ, 0.7 ≤ s → classifyScore s = "Human" := by
    intro s h; rw [classifyScore, if_pos h]
  have hai : ∀ s : ℚ, s ≤ 0.3 → classifyScore s = "AI" := by
    intro s h
    rw [classifyScore, if_neg (by intro hc; linarith : ¬ (0.7 : ℚ) ≤ s), if_pos h]
  have hamb : ∀ s : ℚ, 0.3 < s → s < 0.7 → classifyScore s = "Ambiguous" := by
    intro s h1 h2
    rw [classifyScore, if_neg (by intro hc; linarith : ¬ (0.7 : ℚ) ≤ s),
        if_neg (by intro hc; linarith : ¬ s ≤ (0.3 : ℚ))]
  have e1 : overallHumanLikenessScore 0.9 0.9 = 0.9 := by rw [hov]; norm_num
  have e2 : overallHumanLikenessScore 0.1 0.1 = 0.1 := by rw [hov]; norm_num
  have e3 : overallHumanLikenessScore 0.5 0.5 = 0.5 := by rw [hov]; norm_num
  refine ⟨hov, hhuman, hai, hamb, e1, ?_, e2, ?_, e3, ?_⟩
  · rw [e1]; exact hhuman _ (by norm_num)
  · rw [e2]; exact hai _ (by norm_num)
  · rw [e3]; exact hamb _ (by norm_num) (by norm_num)

/-- C2 witness: the three threshold branches applied at concrete scores. -/
theorem c2_composite_classifier_witness :
    classifyScore 0.8 = "Human" ∧ classifyScore 0.2 = "AI" ∧
    classifyScore 0.5 = "Ambiguous" :=
  ⟨c2_composite_classifier.2.1 0.8 (by norm_num),
   c2_composite_classifier.2.2.1 0.2 (by norm_num),
   c2_composite_classifier.2.2.2.1 0.5 (by norm_num) (by norm_num)⟩

/-- C3 counterexample: the claim words the precise-reference patterns
without the `\b` anchors of the source.  On text `"123:45"` (with delays
`[2000]`) the source's anchored `\b\d{1,2}:\d{2}\b` does not match (score
0.7), while the claim's unanchored `\d{1,2}:\d{2}` matches the substring
`"23:45"` (score 0.55), so the claim as stated is false of the code. -/
theorem c3_unanchored_pattern_counterexample :
    InnovationFeatureMatrix.timePerceptionScore colonText [2000] = 0.7 ∧
    SpecModel.specTimeScore colonText [2000] = 0.55 ∧
    InnovationFeatureMatrix.timePerceptionScore colonText [2000] ≠
      SpecModel.specTimeScore colonText [2000] := by
  have hv : InnovationFeatureMatrix.hasVagueTimeReferences colonText = false := by decide
  have hp : InnovationFeatureMatrix.hasPreciseTimeReferences colonText = false := by decide
  have hsp : SpecModel.specHasPrecise colonText = true := by decide
  have ha : InnovationFeatureMatrix.avgDelay [2000] = 2000 := by
    simp [InnovationFeatureMatrix.avgDelay]
  have h1 : InnovationFeatureMatrix.timePerceptionScore colonText [2000] = 0.7 := by
    rw [InnovationFeatureMatrix.timePerceptionScore, InnovationFeatureMatrix.timePerceptionRaw,
        hv, hp, ha, InnovationFeatureMatrix.delayAdjust,
        if_pos (by norm_num : (1200 : ℚ) ≤ 2000 ∧ (2000 : ℚ) ≤ 3400), clamp01]
    norm_num
  have h2 : SpecModel.specTimeScore colonText [2000] = 0.55 := by
    rw [SpecModel.specTimeScore, hv, hsp, ha,
        if_pos (by norm_num : (1200 : ℚ) ≤ 2000 ∧ (2000 : ℚ) ≤ 3400),
        if_neg (by norm_num : ¬ (2000 : ℚ) < 500), clamp01]
    norm_num
  exact ⟨h1, h2, by rw [h1, h2]; norm_num⟩

/-- C3 (amended): with both precise-reference patterns word-boundary
anchored (`\b...\b`) as in the source, the judge's score is exactly the
claimed computation — 0.5, plus 0.2 for a delay mean in [1200,3400], minus
0.2 for a mean below 500, plus 0.15 for a vague temporal phrase, minus
0.15 for a precise date/time match, clamped to [0,1] — and the two worked
examples hold: delays [2000,2200,2100] with "last week" give 0.85, and
delays [100,120] with "Meeting at 14:30 on 12/05/2024" give 0.15. -/
theorem c3_time_perception_amended :
    (∀ (text : List Char) (responseDelays : List ℚ),
      InnovationFeatureMatrix.timePerceptionScore text responseDelays =
        SpecModel.specTimeScoreAnchored text responseDelays) ∧
    InnovationFeatureMatrix.timePerceptionScore lastWeekText [2000, 2200, 2100] = 0.85 ∧
    InnovationFeatureMatrix.timePerceptionScore meetingText [100, 120] = 0.15 := by
  refine ⟨fun text responseDelays => ?_, ?_, ?_⟩
  · rw [InnovationFeatureMatrix.timePerceptionScore, InnovationFeatureMatrix.timePerceptionRaw,
        SpecModel.specTimeScoreAnchored, delayAdjust_split]
    congr 1
    ring
  · have hv : InnovationFeatureMatrix.hasVagueTimeReferences lastWeekText = true := by decide
    have hp : InnovationFeatureMatrix.hasPreciseTimeReferences lastWeekText = false := by decide
    have ha : InnovationFeatureMatrix.avgDelay [2000, 2200, 2100] = 2100 := by
      simp [InnovationFeatureMatrix.avgDelay]; norm_num
    rw [InnovationFeatureMatrix.timePerceptionScore, InnovationFeatureMatrix.timePerceptionRaw,
        hv, hp, ha, InnovationFeatureMatrix.delayAdjust,
        if_pos (by norm_num : (1200 : ℚ) ≤ 2100 ∧ (2100 : ℚ) ≤ 3400), clamp01]
    norm_num
  · have hv : InnovationFeatureMatrix.hasVagueTimeReferences meetingText = false := by decide
    have hp : InnovationFeatureMatrix.hasPreciseTimeReferences meetingText = true := by decide
    have ha : InnovationFeatureMatrix.avgDelay [100, 120] = 110 := by
      simp [InnovationFeatureMatrix.avgDelay]; norm_num
    rw [InnovationFeatureMatrix.timePerceptionScore, InnovationFeatureMatrix.timePerceptionRaw,
        hv, hp, ha, InnovationFeatureMatrix.delayAdjust,
        if_neg (by norm_num : ¬ ((1200 : ℚ) ≤ 110 ∧ (110 : ℚ) ≤ 3400)),
        if_pos (by norm_num : (110 : ℚ) < 500), clamp01]
    norm_num

/-- C4: when one LLM-backed judge's external call fails, that dimension
gets exactly the canned fallback result, every other dimension's result is
a function of its own outcome only (hence unchanged), the local
time-perception judge is untouched, and the feature block still holds six
results. -/
theorem c4_judge_failure_fallback (o : JudgeOutcomes) (d : LLMDimension)
    (h : o.get d = .error ()) :
    (∀ (text : List Char) (delays : List ℚ),
      featureOf (runJudges text delays o) d = fallbackResult d) ∧
    (∀ (o2 : JudgeOutcomes) (text : List Char) (delays : List ℚ),
      (∀ d2 : LLMDimension, d2 ≠ d → o2.get d2 = o.get d2) →
      ∀ d2 : LLMDimension, d2 ≠ d →
        featureOf (runJudges text delays o2) d2 = featureOf (runJudges text delays o) d2) ∧
    (∀ (text : List Char) (delays : List ℚ),
      (runJudges text delays o).timePerception =
        InnovationFeatureMatrix.analyzeTimePerception text delays) ∧
    (∀ (text : List Char) (delays : List ℚ),
      (featureList (runJudges text delays o)).length = 6) := by
  refine ⟨fun text delays => ?_, fun o2 text delays hagree d2 hne => ?_,
    fun text delays => rfl, fun text delays => rfl⟩
  · rw [featureOf_runJudges, h]
    rfl
  · rw [featureOf_runJudges, featureOf_runJudges, hagree d2 hne]

/-- C4 witness: with the semantic-elasticity call failing and the other
four succeeding, that dimension's result is the canned fallback. -/
theorem c4_judge_failure_fallback_witness :
    featureOf (runJudges [] [] failingOutcomes) .semanticElasticity =
      fallbackResult .semanticElasticity :=
  (c4_judge_failure_fallback failingOutcomes .semanticElasticity rfl).1 [] []

/-- C5: the AI-similarity aggregator transforms each of the three input
scores by f(x) = 1 − x^1.5 and returns 0.3·f(v) + 0.4·f(s) + 0.3·f(d). -/
theorem c5_ai_similarity_aggregator (v s d : ℝ) :
    AISimilarityScoring.calculateOverallScore v s d =
      0.3 * (1 - v ^ (1.5 : ℝ)) + 0.4 * (1 - s ^ (1.5 : ℝ)) +
      0.3 * (1 - d ^ (1.5 : ℝ)) := by
  rw [AISimilarityScoring.calculateOverallScore, AISimilarityScoring.invertAIScore,
      AISimilarityScoring.invertAIScore, AISimilarityScoring.invertAIScore]
  ring

/-- C6: on fewer than two segments the sentiment-variance scorer and the
concept-divergence scorer both return exactly 0, for every sentiment
primitive, stemmer and term-weighting primitive. -/
theorem c6_fewer_than_two_segments_zero
    (polarity : List Char → ℝ) (stem : List Char → List Char)
    (listTerms : List (List Char) → List (List Char))
    (textSegments : List (List Char)) (h : textSegments.length < 2) :
    AISimilarityScoring.calculateEmotionalFluctuation polarity textSegments = 0 ∧
    AISimilarityScoring.calculateCreativeDivergence stem listTerms textSegments = some 0 := by
  constructor
  · rw [AISimilarityScoring.calculateEmotionalFluctuation, if_pos h]
  · rw [AISimilarityScoring.calculateCreativeDivergence, if_pos h]

/-- C6 witness: both scorers return 0 on the empty segment list. -/
theorem c6_fewer_than_two_segments_zero_witness :
    AISimilarityScoring.calculateEmotionalFluctuation (fun _ => 0) [] = 0 ∧
    AISimilarityScoring.calculateCreativeDivergence (fun t => t) (fun l => l) [] = some 0 :=
  c6_fewer_than_two_segments_zero (fun _ => 0) (fun t => t) (fun l => l) [] (by decide)

/-- C7: the claim says both divisions of the lexical analyzer are guarded;
in the source neither is.  On the accepted zero-token text `"!!!"` (which
also has zero sentences) both `lexicalDiversity` and `avgSentenceLength`
are `0/0 = NaN` (modelled `none`) rather than the claimed guarded 0, for
every stemmer and term-weighting primitive.  The spec's demanded guard is
clearly the intent, so the code is wrong. -/
theorem c7_lexical_analyzer_unguarded_division
    (stem : List Char → List Char) (listTerms : List Char → List (List Char × ℚ)) :
    (analyzeTextStructure stem listTerms exclamations).lexicalDiversity = none ∧
    (analyzeTextStructure stem listTerms exclamations).avgSentenceLength = none :=
  ⟨rfl, rfl⟩

/-- C8 counterexample: the claim says whitespace-only text is rejected,
but the route's `if (!text)` only rejects falsy (empty) strings: the
one-space text is whitespace-only yet accepted, and the pipeline runs. -/
theorem c8_whitespace_accepted_counterexample :
    whitespaceText.all Char.isWhitespace = true ∧
    exceptOk (analyzePost (fun t => t) (fun l => l) (fun _ => []) (fun _ => 0)
      whitespaceText [] allOkOutcomes) = true :=
  ⟨rfl, rfl⟩

/-- C8 (amended): the analyze endpoint rejects exactly the empty text with
an immediate error (the pipeline is not invoked); every non-empty text —
including whitespace-only text — is accepted and analyzed. -/
theorem c8_validation_amended :
    (∀ (stem : List Char → List Char)
       (listTermsDoc : List (List Char) → List (List Char))
       (listTermsText : List Char → List (List Char × ℚ))
       (polarity : List Char → ℝ)
       (text : List Char) (responseDelays : List ℚ) (o : JudgeOutcomes),
      exceptOk (analyzePost stem listTermsDoc listTermsText polarity text responseDelays o) =
        textAccepted text) ∧
    textAccepted [] = false ∧
    (∀ (c : Char) (t : List Char), textAccepted (c :: t) = true) := by
  refine ⟨fun stem ltd ltt pol text responseDelays o => ?_, rfl, fun c t => rfl⟩
  cases h : textAccepted text <;> simp [analyzePost, h, exceptOk]

/-- C9 counterexample: two 100-character sentences are joined with a space
into one 201-character segment, so "every segment is at most 200
characters" is false of the code. -/
theorem c9_segment_over_200_counterexample :
    (segmentText longSentenceText).map List.length = [201] := by decide

/-- C9 (amended): provided every sentence is at most 200 characters, every
segment the route produces is at most 201 characters (the joining space
can push a segment one character past 200; a single sentence longer than
200 characters would become its own, longer segment). -/
theorem c9_segment_bound_amended (text : List Char)
    (hs : ∀ s ∈ sentencesOf text, s.length ≤ 200) :
    ∀ seg ∈ segmentText text, seg.length ≤ 201 := by
  intro seg hseg
  have h := segmentFold_bound (sentencesOf text) ([], []) hs
    (by intro g hg; cases hg) (by simp)
  simp only [segmentText] at hseg
  split at hseg
  · exact h.1 seg hseg
  · rcases List.mem_append.mp hseg with hmem | hmem
    · exact h.1 seg hmem
    · rw [List.mem_singleton.mp hmem]
      exact h.2

/-- C9 witness: the bound applied to the tiny text `"Hi"`, whose single
sentence is short and is its own segment. -/
theorem c9_segment_bound_amended_witness : (hiText : List Char).length ≤ 201 :=
  c9_segment_bound_amended hiText (by decide) hiText (by decide)

/-- C10: for every text and delay array the time-perception judge's raw
score already lies in [0.15, 0.85] — the two delay adjustments are
mutually exclusive and the phrase adjustments bound the deviation from 0.5
by 0.35 — so the final clamp to [0,1] never changes the value. -/
theorem c10_time_perception_bounds (text : List Char) (responseDelays : List ℚ) :
    0.15 ≤ InnovationFeatureMatrix.timePerceptionRaw text responseDelays ∧
    InnovationFeatureMatrix.timePerceptionRaw text responseDelays ≤ 0.85 ∧
    InnovationFeatureMatrix.timePerceptionScore text responseDelays =
      InnovationFeatureMatrix.timePerceptionRaw text responseDelays := by
  have hd : -0.2 ≤ InnovationFeatureMatrix.delayAdjust
        (InnovationFeatureMatrix.avgDelay responseDelays) ∧
      InnovationFeatureMatrix.delayAdjust
        (InnovationFeatureMatrix.avgDelay responseDelays) ≤ 0.2 := by
    rw [InnovationFeatureMatrix.delayAdjust]
    split_ifs <;> norm_num
  have hv : (0 : ℚ) ≤ (if InnovationFeatureMatrix.hasVagueTimeReferences text then (0.15 : ℚ) else 0) ∧
      (if InnovationFeatureMatrix.hasVagueTimeReferences text then (0.15 : ℚ) else 0) ≤ 0.15 := by
    split_ifs <;> norm_num
  have hp : (0 : ℚ) ≤ (if InnovationFeatureMatrix.hasPreciseTimeReferences text then (0.15 : ℚ) else 0) ∧
      (if InnovationFeatureMatrix.hasPreciseTimeReferences text then (0.15 : ℚ) else 0) ≤ 0.15 := by
    split_ifs <;> norm_num
  have h1 : 0.15 ≤ InnovationFeatureMatrix.timePerceptionRaw text responseDelays := by
    rw [InnovationFeatureMatrix.timePerceptionRaw]
    linarith [hd.1, hv.1, hp.2]
  have h2 : InnovationFeatureMatrix.timePerceptionRaw text responseDelays ≤ 0.85 := by
    rw [InnovationFeatureMatrix.timePerceptionRaw]
    linarith [hd.2, hv.2, hp.1]
  refine ⟨h1, h2, ?_⟩
  rw [InnovationFeatureMatrix.timePerceptionScore, clamp01,
      max_eq_left (by linarith :
        (0 : ℚ) ≤ InnovationFeatureMatrix.timePerceptionRaw text responseDelays),
      min_eq_left (by linarith :
        InnovationFeatureMatrix.timePerceptionRaw text responseDelays ≤ 1)]

/-- C10 witness: the bounds and clamp identity at a concrete input. -/
theorem c10_time_perception_bounds_witness :
    InnovationFeatureMatrix.timePerceptionScore [] [] =
      InnovationFeatureMatrix.timePerceptionRaw [] [] :=
  (c10_time_perception_bounds [] []).2.2
